import Mathlib

/-!
Verification of the PyPal chatbot engine (src/chatbot.py).

Strings are embedded as lists of Unicode code points (`List Nat`); the
character-class predicates model Python's ASCII behaviour of `str.lower`,
`str.isalpha`, `str.strip`, `str.split` and `str.title` on the inputs the
program manipulates.  Because a plain apostrophe cannot appear in these
sources, string literals write it as a backtick (code point 96), which the
literal-translation function `t` maps back to the apostrophe (39).
-/

/-- Strings as lists of Unicode code points. -/
abbrev Str := List Nat

/-- Translate a Lean string literal to its code-point list, decoding the
backtick placeholder back to an apostrophe. -/
def t (s : String) : Str :=
  s.toList.map (fun c => let n := c.toNat; if n = 96 then 39 else n)

/-- Python whitespace (ASCII part): space, tab, newline, CR, VT, FF. -/
def isWsN (n : Nat) : Bool :=
  n = 32 || n = 9 || n = 10 || n = 13 || n = 11 || n = 12

/-- ASCII uppercase letter. -/
def isUpperN (n : Nat) : Bool := 65 ≤ n && n ≤ 90

/-- ASCII lowercase letter. -/
def isLowerN (n : Nat) : Bool := 97 ≤ n && n ≤ 122

/-- ASCII letter, the model of Python `str.isalpha` on one character. -/
def isAlphaN (n : Nat) : Bool := isUpperN n || isLowerN n

/-- ASCII decimal digit. -/
def isDigitN (n : Nat) : Bool := 48 ≤ n && n ≤ 57

/-- One character of Python `str.lower`. -/
def toLowerN (n : Nat) : Nat := if isUpperN n then n + 32 else n

/-- One character of Python `str.upper`. -/
def toUpperN (n : Nat) : Nat := if isLowerN n then n - 32 else n

/-- Model of Python `str.lower`. -/
def lowerStr (s : Str) : Str := s.map toLowerN

/-- Model of Python `str.strip()` (whitespace from both ends). -/
def stripWs (s : Str) : Str :=
  ((s.dropWhile isWsN).reverse.dropWhile isWsN).reverse

/-- The punctuation set of `strip('.,!?')`: `.`, `,`, `!`, `?`. -/
def isPunctN (n : Nat) : Bool := n = 46 || n = 44 || n = 33 || n = 63

/-- Model of Python `strip('.,!?')` (strips both ends). -/
def stripPunct (s : Str) : Str :=
  ((s.dropWhile isPunctN).reverse.dropWhile isPunctN).reverse

/-- First whitespace-delimited token, the model of `s.split()[0]` for a
string with at least one token. -/
def firstTok (s : Str) : Str :=
  (s.dropWhile isWsN).takeWhile (fun c => !isWsN c)

/-- Model of Python `str.isalpha`: non-empty and every character a letter. -/
def isAlphaStr (s : Str) : Bool := !s.isEmpty && s.all isAlphaN

/-- Count of maximal non-whitespace runs; the flag records whether the
previous character was inside a token.  Models `len(s.split())`. -/
def tokCountAux : Bool → Str → Nat
  | _, [] => 0
  | inTok, c :: r =>
    if isWsN c then tokCountAux false r
    else (if inTok then 0 else 1) + tokCountAux true r

/-- Model of `len(s.split())`. -/
def tokenCount (s : Str) : Nat := tokCountAux false s

/-- Model of Python `str.title` restricted to letter-runs: a letter after a
letter is lower-cased, a letter after a non-letter is upper-cased, other
characters pass through.  The flag records whether the previous character
was a letter. -/
def titleAux : Bool → Str → Str
  | _, [] => []
  | prevAlpha, c :: r =>
    if isAlphaN c then
      (if prevAlpha then toLowerN c else toUpperN c) :: titleAux true r
    else c :: titleAux false r

/-- Model of Python `str.title`. -/
def title (s : Str) : Str := titleAux false s

/-- Boolean prefix test on code-point lists. -/
def isPrefixOfB : Str → Str → Bool
  | [], _ => true
  | _ :: _, [] => false
  | a :: as, b :: bs => a == b && isPrefixOfB as bs

/-- Model of Python `str.find`: index of the first occurrence of `pat`,
`none` when there is no occurrence. -/
def findSub (pat : Str) : Str → Option Nat
  | [] => if isPrefixOfB pat [] then some 0 else none
  | c :: r =>
    if isPrefixOfB pat (c :: r) then some 0
    else (findSub pat r).map (· + 1)

/-- Model of Python `pat in s`. -/
def containsSub (s pat : Str) : Bool := (findSub pat s).isSome

example : t "ab" = [97, 98] := by decide
example : t "i`m" = [105, 39, 109] := by decide
example : stripWs (t "  hi  ") = t "hi" := by decide
example : firstTok (t "bob! rest") = t "bob!" := by decide
example : stripPunct (t ".bob!") = t "bob" := by decide
example : title (t "bob smith") = t "Bob Smith" := by decide
example : findSub (t "i`m") (t "my name is 123 i`m bob") = some 15 := by decide
example : tokenCount (t "I like cats") = 3 := by decide

/-! ## Intent detectors (src/chatbot.py, `detect_*`) -/

/-- `any(p in s for p in phrases)`. -/
def phrasesIn (phrases : List Str) (s : Str) : Bool :=
  phrases.any (fun p => containsSub s p)

/-- The greeting phrase list of `detect_greeting`. -/
def greetings : List Str :=
  [t "hi", t "hello", t "hey", t "hiya", t "good morning", t "good afternoon",
   t "good evening", t "sup", t "yo"]

/-- `detect_greeting`: some greeting phrase occurs in the lower-cased input. -/
def detect_greeting (input : Str) : Bool := phrasesIn greetings (lowerStr input)

/-- The phrase list of `detect_how_are_you`. -/
def how_are_you_phrases : List Str :=
  [t "how are you", t "how do you do", t "how are things", t "how`s it going",
   t "how you doing"]

/-- `detect_how_are_you`. -/
def detect_how_are_you (input : Str) : Bool :=
  phrasesIn how_are_you_phrases (lowerStr input)

/-- The keyword list of `detect_time_request`. -/
def time_keywords : List Str :=
  [t "time", t "clock", t "what time is it", t "current time", t "time is it",
   t "what time"]

/-- `detect_time_request`. -/
def detect_time_request (input : Str) : Bool :=
  phrasesIn time_keywords (lowerStr input)

/-- The phrase list of `detect_goodbye`. -/
def goodbye_phrases : List Str :=
  [t "bye", t "goodbye", t "see you", t "farewell", t "exit", t "quit",
   t "stop", t "close", t "end"]

/-- `detect_goodbye`: the input is lower-cased and stripped before testing. -/
def detect_goodbye (input : Str) : Bool :=
  phrasesIn goodbye_phrases (stripWs (lowerStr input))

/-! ## Name extraction (src/chatbot.py, `detect_name_in_message`) -/

/-- The ordered lead-in phrase list `name_patterns`. -/
def namePatterns : List Str :=
  [t "my name is", t "i`m", t "i am", t "call me", t "name`s", t "i go by"]

/-- One iteration of the pattern loop in `detect_name_in_message`: if `pat`
occurs in the lower-cased input, take the text after its first occurrence,
strip whitespace, and if non-empty take its first token, strip `.,!?` from
both ends, and accept the title-cased result when it is purely alphabetic.
`none` means the Python loop falls through to the next pattern. -/
def tryPattern (input lower pat : Str) : Option Str :=
  match findSub pat lower with
  | none => none
  | some i =>
    let namePart := stripWs (input.drop (i + pat.length))
    if namePart.isEmpty then none
    else
      let potential := stripPunct (firstTok namePart)
      if isAlphaStr potential then some (title potential) else none

/-- The `for pattern in name_patterns` loop: first successful pattern wins,
a failed pattern falls through to the next one. -/
def scanPatterns (input lower : Str) : List Str → Option Str
  | [] => none
  | p :: ps =>
    match tryPattern input lower p with
    | some nm => some nm
    | none => scanPatterns input lower ps

/-- The whole-input fallback of `detect_name_in_message`: accept the (already
stripped) input as a name iff it has at most two tokens and is alphabetic
once spaces are removed. -/
def fallbackName (input : Str) : Option Str :=
  if tokenCount input ≤ 2 && isAlphaStr (input.filter (fun c => !(c == 32))) then
    some (title input)
  else none

/-- `detect_name_in_message`: the input is first stripped
(`user_input = user_input.strip()`), the pattern loop runs on it, and the
whole-input fallback applies when the loop finds nothing. -/
def detect_name_in_message (input0 : Str) : Option Str :=
  match scanPatterns (stripWs input0) (lowerStr (stripWs input0)) namePatterns with
  | some nm => some nm
  | none => fallbackName (stripWs input0)

example : detect_name_in_message (t "My name is Alice") = some (t "Alice") := by decide
example : detect_name_in_message (t "i`m bob!") = some (t "Bob") := by decide
example : detect_name_in_message (t "Sam") = some (t "Sam") := by decide
example : detect_name_in_message (t "I like cats") = none := by decide
example : detect_name_in_message (t "my name is 123 i`m Bob") = some (t "Bob") := by decide
example : detect_name_in_message (t "i`m .Bob") = some (t "Bob") := by decide

/-! ## Session state and current time -/

/-- The two engine-relevant fields of `PyPalChatbot`: `self.user_name`
(`None` initially) and `self.conversation_started`. -/
structure ChatState where
  user_name : Option Str
  conversation_started : Bool
deriving DecidableEq, Repr

/-- The state set up by `__init__`: no name, conversation not started. -/
def initState : ChatState := ⟨none, false⟩

/-- Python truthiness of `self.user_name`: `None` and the empty string are
falsy. -/
def truthy : Option Str → Bool
  | none => false
  | some s => !s.isEmpty

/-- The string a true-branch f-string interpolation of `self.user_name`
renders (only used under a `truthy` guard). -/
def unOpt : Option Str → Str
  | none => []
  | some s => s

/-- The `', ' + self.user_name if self.user_name else ''` fragment used by
several response templates. -/
def nameTag (u : Option Str) : Str :=
  if truthy u then t ", " ++ unOpt u else []

/-- The local-time fields `datetime.datetime.now()` supplies to
`get_current_time` (`%I`, `%M`, `%p`, `%B`, `%d`, `%Y`). -/
structure DTime where
  year : Nat
  month : Nat
  day : Nat
  hour : Nat
  minute : Nat
deriving DecidableEq, Repr

/-- Zero-padded two-digit decimal rendering (`%I`, `%M`, `%d`). -/
def twoDig (n : Nat) : Str := [48 + n / 10 % 10, 48 + n % 10]

/-- Four-digit decimal rendering; agrees with Python `%Y` for years in
`[1000, 9999]`. -/
def fourDig (n : Nat) : Str :=
  [48 + n / 1000 % 10, 48 + n / 100 % 10, 48 + n / 10 % 10, 48 + n % 10]

/-- The 12-hour clock value of `%I`. -/
def hour12 (h : Nat) : Nat := if h % 12 = 0 then 12 else h % 12

/-- `%p`: `AM` before noon, `PM` from noon on. -/
def ampm (h : Nat) : Str := if h < 12 then t "AM" else t "PM"

/-- `%B`: the full month name. -/
def monthName : Nat → Str
  | 1 => t "January"
  | 2 => t "February"
  | 3 => t "March"
  | 4 => t "April"
  | 5 => t "May"
  | 6 => t "June"
  | 7 => t "July"
  | 8 => t "August"
  | 9 => t "September"
  | 10 => t "October"
  | 11 => t "November"
  | 12 => t "December"
  | _ => []

/-- `get_current_time`: `now.strftime("It's currently %I:%M %p on %B %d, %Y")`. -/
def get_current_time (d : DTime) : Str :=
  t "It`s currently " ++ twoDig (hour12 d.hour) ++ t ":" ++ twoDig d.minute
    ++ t " " ++ ampm d.hour ++ t " on " ++ monthName d.month ++ t " "
    ++ twoDig d.day ++ t ", " ++ fourDig d.year

example : get_current_time ⟨2026, 10, 12, 15, 5⟩
    = t "It`s currently 03:05 PM on October 12, 2026" := by decide

/-! ## Response variant lists (src/chatbot.py, `generate_response`) -/

/-- The `name_responses` list, with the name interpolated. -/
def name_responses (nm : Str) : List Str :=
  [t "Nice to meet you, " ++ nm ++ t "! 😊 How can I help you today?",
   t "Great to meet you, " ++ nm ++ t "! I`m excited to chat with you!",
   t "Hello " ++ nm ++ t "! What a lovely name. What would you like to talk about?",
   t "Wonderful, " ++ nm ++ t "! Thanks for introducing yourself. How are you doing today?"]

/-- The fixed reply of the failed name-collection branch. -/
def noNameReply : Str :=
  t "I didn`t quite catch your name there. That`s okay though! What would you like to chat about? You can always tell me your name later! 😊"

/-- The `goodbye_responses` list. -/
def goodbye_responses (u : Option Str) : List Str :=
  [t "Goodbye" ++ nameTag u ++ t "! It was wonderful chatting with you! 👋",
   t "See you later" ++ nameTag u ++ t "! Have a fantastic day! 😊",
   t "Bye" ++ nameTag u ++ t "! Thanks for the great conversation!",
   t "Take care" ++ nameTag u ++ t "! Chat with me again anytime!"]

/-- The `time_responses` list. -/
def time_responses (d : DTime) (u : Option Str) : List Str :=
  [get_current_time d,
   get_current_time d ++ t " ⏰",
   t "Sure thing" ++ nameTag u ++ t "! " ++ get_current_time d]

/-- The `greeting_responses` list: named variants when `self.user_name` is
truthy, plain variants otherwise. -/
def greeting_responses (u : Option Str) : List Str :=
  if truthy u then
    [t "Hello again, " ++ unOpt u ++ t "! How can I help you? 😊",
     t "Hi " ++ unOpt u ++ t "! Great to hear from you!",
     t "Hey there, " ++ unOpt u ++ t "! What`s on your mind?",
     t "Hello " ++ unOpt u ++ t "! How are you doing today?"]
  else
    [t "Hello there! How can I help you today? 😊",
     t "Hi! Great to meet you! What`s on your mind?",
     t "Hey! I`m here and ready to chat!",
     t "Hello! How are you doing today?"]

/-- The `how_are_you_responses` list. -/
def how_are_you_responses (u : Option Str) : List Str :=
  [t "I`m doing great, thank you for asking" ++ nameTag u ++ t "! How are you?",
   t "I`m wonderful" ++ nameTag u ++ t "! Thanks for checking in. How about you?",
   t "I`m having a fantastic day" ++ nameTag u ++ t "! How are things with you?",
   t "I`m doing well" ++ nameTag u ++ t "! Ready to help with whatever you need!"]

/-- The `default_responses` list. -/
def default_responses (u : Option Str) : List Str :=
  if truthy u then
    [t "That`s interesting, " ++ unOpt u ++ t "! Tell me more about that.",
     t "I`m not sure I understand, " ++ unOpt u ++ t ", but I`m here to listen!",
     t "Hmm, " ++ unOpt u ++ t ", I`d love to learn more about what you mean.",
     t "I`m still learning, " ++ unOpt u ++ t "! Can you try asking in a different way?",
     t "That`s cool, " ++ unOpt u ++ t "! What else would you like to talk about?",
     t "I`m here to chat, " ++ unOpt u ++ t "! Try asking me about the time, or just say hello!"]
  else
    [t "That`s interesting! Tell me more about that.",
     t "I`m not sure I understand, but I`m here to listen!",
     t "Hmm, I`d love to learn more about what you mean.",
     t "I`m still learning! Can you try asking in a different way?",
     t "That`s cool! What else would you like to talk about?",
     t "I`m here to chat! Try asking me about the time, or just say hello!"]

/-- `random.choice`, with the pseudo-random draw made explicit: `pick`
selects an index modulo the list length. -/
def choice (l : List Str) (pick : Nat) : Str := l.getD (pick % l.length) []

/-- `generate_response`: the engine step.  Inputs are the current state, the
user text, the current local time (read inside the time branch) and the
random draw; outputs are the reply and the post-state. -/
def generate_response (st : ChatState) (input : Str) (d : DTime) (pick : Nat) :
    Str × ChatState :=
  if !truthy st.user_name && !st.conversation_started then
    match detect_name_in_message input with
    | some nm => (choice (name_responses nm) pick, ⟨some nm, true⟩)
    | none => (noNameReply, ⟨st.user_name, true⟩)
  else if detect_goodbye input then
    (choice (goodbye_responses st.user_name) pick, st)
  else if detect_time_request input then
    (choice (time_responses d st.user_name) pick, st)
  else if detect_greeting input then
    (choice (greeting_responses st.user_name) pick, st)
  else if detect_how_are_you input then
    (choice (how_are_you_responses st.user_name) pick, st)
  else
    (choice (default_responses st.user_name) pick, st)

/-- One logical turn's inputs: the user text, the wall-clock time, and the
random draw. -/
structure TurnIn where
  inp : Str
  now : DTime
  pick : Nat

/-- The state evolution of one turn. -/
def stepState (st : ChatState) (tu : TurnIn) : ChatState :=
  (generate_response st tu.inp tu.now tu.pick).2

/-- The session state after a sequence of turns from the initial state. -/
def runTurns (ts : List TurnIn) : ChatState := ts.foldl stepState initState

example :
    (generate_response initState (t "i`m bob!") ⟨2026, 1, 1, 0, 0⟩ 0).2
      = ⟨some (t "Bob"), true⟩ := by decide
example :
    (generate_response ⟨some (t "Alice"), true⟩ (t "hi, bye") ⟨2026, 1, 1, 0, 0⟩ 1).1
      = t "See you later, Alice! Have a fantastic day! 😊" := by decide

/-! ## Conversation logging (src/chatbot.py, `log_message`)

`log_message` formats `f"[{timestamp}] {sender}: {message}\n"` and appends it
to the log file inside a `try`/`except` that prints and swallows any write
error.  The file is modelled as the code-point sequence of its contents and
a write failure as the `writeOk` flag; the second component of the result
records whether an error was reported.  The function is total: no exception
propagates, and the engine's `ChatState` is never touched by it. -/

/-- The formatted `log_entry` line, terminated by a newline (code 10). -/
def logEntry (ts sender msg : Str) : Str :=
  t "[" ++ ts ++ t "] " ++ sender ++ t ": " ++ msg ++ [10]

/-- `log_message`: on a successful write the entry is appended; on a write
failure the error is caught and reported and the log is unchanged. -/
def log_message (log : Str) (writeOk : Bool) (ts sender msg : Str) :
    Str × Bool :=
  if writeOk then (log ++ logEntry ts sender msg, false) else (log, true)

/-- Number of newline characters, i.e. of completed lines, in a string. -/
def lineCount (s : Str) : Nat := (s.filter (fun c => c == 10)).length

/-! ## Helper lemmas -/

theorem ne_nil_of_append_left {a b : Str} (h : a ≠ []) : a ++ b ≠ [] := by
  cases a with
  | nil => exact absurd rfl h
  | cons c r => simp

theorem choice_mem (l : List Str) (pick : Nat) (h : l ≠ []) :
    choice l pick ∈ l := by
  unfold choice
  have hlt : pick % l.length < l.length :=
    Nat.mod_lt _ (List.length_pos.mpr h)
  rw [List.getD_eq_getElem?_getD, List.getElem?_eq_getElem hlt, Option.getD_some]
  exact List.getElem_mem hlt

theorem choice_ne_nil (l : List Str) (pick : Nat) (hne : l ≠ [])
    (h : ∀ x ∈ l, x ≠ []) : choice l pick ≠ [] :=
  h _ (choice_mem l pick hne)

theorem isPrefixOfB_append (s r : Str) : isPrefixOfB s (s ++ r) = true := by
  induction s with
  | nil => rfl
  | cons c cs ih => simp [isPrefixOfB, ih]

theorem findSub_isSome_of_prefixB (pat s : Str) (h : isPrefixOfB pat s = true) :
    (findSub pat s).isSome = true := by
  cases s with
  | nil => simp [findSub, h]
  | cons c r => simp [findSub, h]

theorem containsSub_append (pre core suf : Str) :
    containsSub (pre ++ (core ++ suf)) core = true := by
  induction pre with
  | nil =>
    simpa [containsSub] using
      findSub_isSome_of_prefixB core (core ++ suf) (isPrefixOfB_append core suf)
  | cons c r ih =>
    show containsSub (c :: (r ++ (core ++ suf))) core = true
    unfold containsSub findSub
    by_cases hp : isPrefixOfB core (c :: (r ++ (core ++ suf))) = true
    · simp [hp]
    · simp only [hp, if_neg, Bool.false_eq_true, Option.isSome_map]
      simpa [containsSub] using ih

theorem containsSub_self (s : Str) : containsSub s s = true := by
  have h := containsSub_append [] s []
  simpa using h

theorem isAlphaN_toUpperN (n : Nat) (h : isAlphaN n = true) :
    isAlphaN (toUpperN n) = true := by
  simp only [isAlphaN, isUpperN, isLowerN, toUpperN, Bool.or_eq_true,
    Bool.and_eq_true, decide_eq_true_eq] at *
  split <;> omega

theorem isAlphaN_toLowerN (n : Nat) (h : isAlphaN n = true) :
    isAlphaN (toLowerN n) = true := by
  simp only [isAlphaN, isUpperN, isLowerN, toLowerN, Bool.or_eq_true,
    Bool.and_eq_true, decide_eq_true_eq] at *
  split <;> omega

theorem toUpperN_toUpperN (n : Nat) : toUpperN (toUpperN n) = toUpperN n := by
  simp only [toUpperN, isLowerN, Bool.and_eq_true, decide_eq_true_eq]
  split
  · split <;> omega
  · rfl

theorem toLowerN_toLowerN (n : Nat) : toLowerN (toLowerN n) = toLowerN n := by
  simp only [toLowerN, isUpperN, Bool.and_eq_true, decide_eq_true_eq]
  split
  · split <;> omega
  · rfl

theorem isWsN_eq_false_of_isAlphaN (n : Nat) (h : isAlphaN n = true) :
    isWsN n = false := by
  simp only [isAlphaN, isUpperN, isLowerN, isWsN, Bool.or_eq_true,
    Bool.and_eq_true, decide_eq_true_eq, Bool.or_eq_false_iff,
    decide_eq_false_iff_not] at *
  omega

/-- The case-change applied by `titleAux` to a letter. -/
def caseFix (prevAlpha : Bool) (n : Nat) : Nat :=
  if prevAlpha then toLowerN n else toUpperN n

theorem isAlphaN_caseFix (b : Bool) (n : Nat) (h : isAlphaN n = true) :
    isAlphaN (caseFix b n) = true := by
  cases b <;> simp [caseFix, isAlphaN_toUpperN n h, isAlphaN_toLowerN n h]

theorem titleAux_cons_alpha (b : Bool) (c : Nat) (r : Str)
    (h : isAlphaN c = true) :
    titleAux b (c :: r) = caseFix b c :: titleAux true r := by
  simp [titleAux, h, caseFix]

theorem titleAux_cons_not_alpha (b : Bool) (c : Nat) (r : Str)
    (h : isAlphaN c = false) :
    titleAux b (c :: r) = c :: titleAux false r := by
  simp [titleAux, h]

theorem titleAux_all (p : Nat → Bool)
    (hp : ∀ b n, p n = true → isAlphaN n = true → p (caseFix b n) = true) :
    ∀ (b : Bool) (s : Str), s.all p = true → (titleAux b s).all p = true := by
  intro b s
  induction s generalizing b with
  | nil => intro _; rfl
  | cons c r ih =>
    intro h
    rw [List.all_cons, Bool.and_eq_true] at h
    by_cases hc : isAlphaN c = true
    · rw [titleAux_cons_alpha b c r hc, List.all_cons, Bool.and_eq_true]
      exact ⟨hp b c h.1 hc, ih true h.2⟩
    · rw [titleAux_cons_not_alpha b c r (Bool.not_eq_true _ ▸ hc),
        List.all_cons, Bool.and_eq_true]
      exact ⟨h.1, ih false h.2⟩

theorem titleAux_idem (b : Bool) (s : Str) :
    titleAux b (titleAux b s) = titleAux b s := by
  induction s generalizing b with
  | nil => rfl
  | cons c r ih =>
    by_cases hc : isAlphaN c = true
    · rw [titleAux_cons_alpha b c r hc,
        titleAux_cons_alpha b _ _ (isAlphaN_caseFix b c hc), ih true]
      cases b <;> simp [caseFix, toUpperN_toUpperN, toLowerN_toLowerN]
    · have hc' : isAlphaN c = false := Bool.not_eq_true _ ▸ hc
      rw [titleAux_cons_not_alpha b c r hc',
        titleAux_cons_not_alpha b c _ hc', ih false]

theorem title_idem (s : Str) : title (title s) = title s := titleAux_idem false s

theorem title_ne_nil (s : Str) (h : s ≠ []) : title s ≠ [] := by
  cases s with
  | nil => exact absurd rfl h
  | cons c r =>
    by_cases hc : isAlphaN c = true
    · rw [title, titleAux_cons_alpha false c r hc]; simp
    · rw [title, titleAux_cons_not_alpha false c r (Bool.not_eq_true _ ▸ hc)]
      simp

theorem tokCountAux_true_zero (s : Str)
    (h : s.all (fun c => !isWsN c) = true) : tokCountAux true s = 0 := by
  induction s with
  | nil => rfl
  | cons c r ih =>
    rw [List.all_cons, Bool.and_eq_true, Bool.not_eq_true'] at h
    simp [tokCountAux, h.1, ih h.2]

theorem tokenCount_all_nonWs (s : Str) (hne : s ≠ [])
    (h : s.all (fun c => !isWsN c) = true) : tokenCount s = 1 := by
  cases s with
  | nil => exact absurd rfl hne
  | cons c r =>
    rw [List.all_cons, Bool.and_eq_true, Bool.not_eq_true'] at h
    simp [tokenCount, tokCountAux, h.1, tokCountAux_true_zero r h.2]

theorem tokCountAux_titleAux (b flag : Bool) (s : Str) :
    tokCountAux flag (titleAux b s) = tokCountAux flag s := by
  induction s generalizing b flag with
  | nil => rfl
  | cons c r ih =>
    by_cases hc : isAlphaN c = true
    · have hw : isWsN c = false := isWsN_eq_false_of_isAlphaN c hc
      have hw' : isWsN (caseFix b c) = false :=
        isWsN_eq_false_of_isAlphaN _ (isAlphaN_caseFix b c hc)
      rw [titleAux_cons_alpha b c r hc]
      simp [tokCountAux, hw, hw', ih]
    · rw [titleAux_cons_not_alpha b c r (Bool.not_eq_true _ ▸ hc)]
      by_cases hw : isWsN c = true <;> simp [tokCountAux, hw, ih]

theorem tokenCount_title (s : Str) : tokenCount (title s) = tokenCount s :=
  tokCountAux_titleAux false false s

/-- The bundle of shape facts claimed for every extracted name: non-empty,
letters and spaces only, at most two tokens, and title-cased. -/
def GoodName (nm : Str) : Prop :=
  nm ≠ [] ∧ nm.all (fun c => isAlphaN c || c == 32) = true ∧
    tokenCount nm ≤ 2 ∧ title nm = nm

theorem isAlphaStr_parts (s : Str) (h : isAlphaStr s = true) :
    s ≠ [] ∧ s.all isAlphaN = true := by
  rw [isAlphaStr, Bool.and_eq_true, Bool.not_eq_true'] at h
  refine ⟨?_, h.2⟩
  cases s with
  | nil => simp [List.isEmpty] at h
  | cons c r => simp

theorem goodName_title_of_alpha (s : Str) (h0 : isAlphaStr s = true) :
    GoodName (title s) := by
  have h := isAlphaStr_parts s h0
  have halpha : (title s).all isAlphaN = true :=
    titleAux_all isAlphaN (fun b n hn ha => isAlphaN_caseFix b n ha) false s h.2
  refine ⟨title_ne_nil s h.1, ?_, ?_, title_idem s⟩
  · refine List.all_eq_true.mpr (fun c hc => ?_)
    have := List.all_eq_true.mp halpha c hc
    simp [this]
  · have h1 : tokenCount (title s) = 1 := by
      refine tokenCount_all_nonWs _ (title_ne_nil s h.1) ?_
      refine List.all_eq_true.mpr (fun c hc => ?_)
      have := List.all_eq_true.mp halpha c hc
      simp [isWsN_eq_false_of_isAlphaN c this]
    omega

theorem goodName_title_of_alphaOrSpace (s : Str) (hne : s ≠ [])
    (hcls : s.all (fun c => isAlphaN c || c == 32) = true)
    (htok : tokenCount s ≤ 2) : GoodName (title s) := by
  refine ⟨title_ne_nil s hne, ?_, ?_, title_idem s⟩
  · refine titleAux_all _ ?_ false s hcls
    intro b n hn ha
    simp [isAlphaN_caseFix b n ha]
  · rw [tokenCount_title]; exact htok

theorem tryPattern_some (input lower p nm : Str)
    (h : tryPattern input lower p = some nm) :
    ∃ s, isAlphaStr s = true ∧ nm = title s := by
  unfold tryPattern at h
  rcases hf : findSub p lower with _ | i <;> rw [hf] at h
  · exact absurd h (by simp)
  · simp only at h
    split at h
    · exact absurd h (by simp)
    · split at h
      · rename_i halpha
        exact ⟨_, halpha, (Option.some_inj.mp h).symm⟩
      · exact absurd h (by simp)

theorem scanPatterns_some (input lower : Str) (ps : List Str) (nm : Str)
    (h : scanPatterns input lower ps = some nm) :
    ∃ p, tryPattern input lower p = some nm := by
  induction ps with
  | nil => exact absurd h (by simp [scanPatterns])
  | cons p ps ih =>
    unfold scanPatterns at h
    rcases hp : tryPattern input lower p with _ | nm' <;> rw [hp] at h
    · exact ih h
    · exact ⟨p, hp.trans h⟩

theorem fallbackName_some (input nm : Str)
    (h : fallbackName input = some nm) :
    tokenCount input ≤ 2 ∧
      isAlphaStr (input.filter (fun c => !(c == 32))) = true ∧
      nm = title input := by
  unfold fallbackName at h
  split at h
  · rename_i hcond
    rw [Bool.and_eq_true, decide_eq_true_eq] at hcond
    exact ⟨hcond.1, hcond.2, (Option.some_inj.mp h).symm⟩
  · exact absurd h (by simp)

theorem goodName_of_fallback (input nm : Str)
    (h : fallbackName input = some nm) : GoodName nm := by
  obtain ⟨htok, halpha, hnm⟩ := fallbackName_some input nm h
  obtain ⟨hfne, hfall⟩ := isAlphaStr_parts _ halpha
  have hcls : input.all (fun c => isAlphaN c || c == 32) = true := by
    refine List.all_eq_true.mpr (fun c hc => ?_)
    by_cases h32 : c = 32
    · simp [h32]
    · have hmem : c ∈ input.filter (fun c => !(c == 32)) :=
        List.mem_filter.mpr ⟨hc, by simp [h32]⟩
      have := List.all_eq_true.mp hfall c hmem
      simp [this]
  have hne : input ≠ [] := by
    intro hemp
    rw [hemp] at hfne
    exact hfne (by simp)
  rw [hnm]
  exact goodName_title_of_alphaOrSpace input hne hcls htok

theorem detect_name_props (input nm : Str)
    (h : detect_name_in_message input = some nm) : GoodName nm := by
  unfold detect_name_in_message at h
  rcases hs : scanPatterns (stripWs input) (lowerStr (stripWs input)) namePatterns
      with _ | nm' <;> rw [hs] at h
  · exact goodName_of_fallback _ _ h
  · obtain ⟨p, hp⟩ := scanPatterns_some _ _ _ _ (hs.trans h)
    obtain ⟨s, hsa, hnm⟩ := tryPattern_some _ _ _ _ hp
    rw [hnm]
    exact goodName_title_of_alpha s hsa

theorem detect_name_ne_nil (input nm : Str)
    (h : detect_name_in_message input = some nm) : nm ≠ [] :=
  (detect_name_props input nm h).1

/-! ## Structure of `generate_response` -/

theorem generate_response_first (st : ChatState) (input : Str) (d : DTime)
    (pick : Nat) (hu : truthy st.user_name = false)
    (hc : st.conversation_started = false) :
    generate_response st input d pick =
      match detect_name_in_message input with
      | some nm => (choice (name_responses nm) pick, ⟨some nm, true⟩)
      | none => (noNameReply, ⟨st.user_name, true⟩) := by
  unfold generate_response
  rw [if_pos (by simp [hu, hc])]

theorem generate_response_else (st : ChatState) (input : Str) (d : DTime)
    (pick : Nat) (h : (!truthy st.user_name && !st.conversation_started) = false) :
    generate_response st input d pick =
      (if detect_goodbye input then choice (goodbye_responses st.user_name) pick
       else if detect_time_request input then
         choice (time_responses d st.user_name) pick
       else if detect_greeting input then
         choice (greeting_responses st.user_name) pick
       else if detect_how_are_you input then
         choice (how_are_you_responses st.user_name) pick
       else choice (default_responses st.user_name) pick, st) := by
  unfold generate_response
  rw [if_neg (by simp [h])]
  by_cases h1 : detect_goodbye input = true
  · simp [h1]
  · by_cases h2 : detect_time_request input = true
    · simp [h1, h2]
    · by_cases h3 : detect_greeting input = true
      · simp [h1, h2, h3]
      · by_cases h4 : detect_how_are_you input = true
        · simp [h1, h2, h3, h4]
        · simp [h1, h2, h3, h4]

theorem generate_response_state_else (st : ChatState) (input : Str) (d : DTime)
    (pick : Nat)
    (h : (!truthy st.user_name && !st.conversation_started) = false) :
    (generate_response st input d pick).2 = st := by
  rw [generate_response_else st input d pick h]

theorem generate_response_started (st : ChatState) (input : Str) (d : DTime)
    (pick : Nat) (h : st.conversation_started = true) :
    generate_response st input d pick =
      (if detect_goodbye input then choice (goodbye_responses st.user_name) pick
       else if detect_time_request input then
         choice (time_responses d st.user_name) pick
       else if detect_greeting input then
         choice (greeting_responses st.user_name) pick
       else if detect_how_are_you input then
         choice (how_are_you_responses st.user_name) pick
       else choice (default_responses st.user_name) pick, st) :=
  generate_response_else st input d pick (by simp [h])

/-- The reachable-state invariant: the stored name, when present, has the
`GoodName` shape produced by `detect_name_in_message`. -/
def goodState (st : ChatState) : Prop :=
  st.user_name = none ∨ ∃ nm, st.user_name = some nm ∧ GoodName nm

theorem goodState_init : goodState initState := Or.inl rfl

theorem goodState_gen (st : ChatState) (input : Str) (d : DTime) (pick : Nat)
    (h : goodState st) : goodState (generate_response st input d pick).2 := by
  by_cases hg : (!truthy st.user_name && !st.conversation_started) = true
  · rw [Bool.and_eq_true, Bool.not_eq_true', Bool.not_eq_true'] at hg
    rw [generate_response_first st input d pick hg.1 hg.2]
    rcases hd : detect_name_in_message input with _ | nm
    · simpa [goodState] using h
    · exact Or.inr ⟨nm, rfl, detect_name_props input nm hd⟩
  · rw [generate_response_state_else st input d pick
      (Bool.eq_false_iff.mpr hg)]
    exact h

/-! ## Non-emptiness of every reply variant -/

theorem get_current_time_ne_nil (d : DTime) : get_current_time d ≠ [] := by
  unfold get_current_time
  repeat apply ne_nil_of_append_left
  decide

theorem name_responses_ne_nil (nm : Str) : ∀ x ∈ name_responses nm, x ≠ [] := by
  intro x hx
  simp only [name_responses, List.mem_cons, List.not_mem_nil, or_false] at hx
  rcases hx with h | h | h | h <;> subst h <;>
    (repeat apply ne_nil_of_append_left) <;> decide

theorem goodbye_responses_ne_nil (u : Option Str) :
    ∀ x ∈ goodbye_responses u, x ≠ [] := by
  intro x hx
  simp only [goodbye_responses, List.mem_cons, List.not_mem_nil, or_false] at hx
  rcases hx with h | h | h | h <;> subst h <;>
    (repeat apply ne_nil_of_append_left) <;> decide

theorem time_responses_ne_nil (d : DTime) (u : Option Str) :
    ∀ x ∈ time_responses d u, x ≠ [] := by
  intro x hx
  simp only [time_responses, List.mem_cons, List.not_mem_nil, or_false] at hx
  rcases hx with h | h | h <;> subst h
  · exact get_current_time_ne_nil d
  · exact ne_nil_of_append_left (get_current_time_ne_nil d)
  · repeat apply ne_nil_of_append_left
    decide

theorem greeting_responses_ne_nil (u : Option Str) :
    ∀ x ∈ greeting_responses u, x ≠ [] := by
  intro x hx
  by_cases ht : truthy u = true
  · simp only [greeting_responses, ht, if_true, List.mem_cons,
      List.not_mem_nil, or_false] at hx
    rcases hx with h | h | h | h <;> subst h <;>
      (repeat apply ne_nil_of_append_left) <;> decide
  · rw [greeting_responses, if_neg (by simp [ht])] at hx
    revert x hx
    decide

theorem how_are_you_responses_ne_nil (u : Option Str) :
    ∀ x ∈ how_are_you_responses u, x ≠ [] := by
  intro x hx
  simp only [how_are_you_responses, List.mem_cons, List.not_mem_nil,
    or_false] at hx
  rcases hx with h | h | h | h <;> subst h <;>
    (repeat apply ne_nil_of_append_left) <;> decide

theorem default_responses_ne_nil (u : Option Str) :
    ∀ x ∈ default_responses u, x ≠ [] := by
  intro x hx
  by_cases ht : truthy u = true
  · simp only [default_responses, ht, if_true, List.mem_cons,
      List.not_mem_nil, or_false] at hx
    rcases hx with h | h | h | h | h | h <;> subst h <;>
      (repeat apply ne_nil_of_append_left) <;> decide
  · rw [default_responses, if_neg (by simp [ht])] at hx
    revert x hx
    decide

theorem greeting_responses_not_nil (u : Option Str) :
    greeting_responses u ≠ [] := by
  unfold greeting_responses
  split <;> simp

theorem default_responses_not_nil (u : Option Str) :
    default_responses u ≠ [] := by
  unfold default_responses
  split <;> simp

theorem generate_response_reply_else (st : ChatState) (input : Str) (d : DTime)
    (pick : Nat)
    (h : (!truthy st.user_name && !st.conversation_started) = false) :
    (generate_response st input d pick).1 =
      if detect_goodbye input then choice (goodbye_responses st.user_name) pick
      else if detect_time_request input then
        choice (time_responses d st.user_name) pick
      else if detect_greeting input then
        choice (greeting_responses st.user_name) pick
      else if detect_how_are_you input then
        choice (how_are_you_responses st.user_name) pick
      else choice (default_responses st.user_name) pick := by
  rw [generate_response_else st input d pick h]

/-! ## The claims -/

/-- C1: for every session state and every (non-empty) input, the engine is a
total function (it is defined by structural recursion on its inputs, so no
exception can arise) whose reply is a non-empty string; and from the initial
state — `userName = none`, conversation-started flag `false`, i.e. turn 1 —
the post-state has the conversation-started flag set. -/
theorem claim_C1 (st : ChatState) (input : Str) (d : DTime) (pick : Nat)
    (_hne : input ≠ []) :
    (generate_response st input d pick).1 ≠ [] ∧
      (st = initState →
        (generate_response st input d pick).2.conversation_started = true) := by
  constructor
  · by_cases hg : (!truthy st.user_name && !st.conversation_started) = true
    · rw [Bool.and_eq_true, Bool.not_eq_true', Bool.not_eq_true'] at hg
      rw [generate_response_first st input d pick hg.1 hg.2]
      rcases hd : detect_name_in_message input with _ | nm <;> simp only [hd]
      · decide
      · exact choice_ne_nil _ pick (by simp [name_responses])
          (name_responses_ne_nil nm)
    · rw [generate_response_reply_else st input d pick
        (Bool.eq_false_iff.mpr hg)]
      split
      · exact choice_ne_nil _ pick (by simp [goodbye_responses])
          (goodbye_responses_ne_nil _)
      · split
        · exact choice_ne_nil _ pick (by simp [time_responses])
            (time_responses_ne_nil d _)
        · split
          · exact choice_ne_nil _ pick (greeting_responses_not_nil _)
              (greeting_responses_ne_nil _)
          · split
            · exact choice_ne_nil _ pick (by simp [how_are_you_responses])
                (how_are_you_responses_ne_nil _)
            · exact choice_ne_nil _ pick (default_responses_not_nil _)
                (default_responses_ne_nil _)
  · intro hst
    subst hst
    rw [generate_response_first initState input d pick rfl rfl]
    rcases hd : detect_name_in_message input with _ | nm <;> simp [hd]

/-- A witness for C1 at the concrete input `"hello"` from the initial
state. -/
theorem claim_C1_witness :
    t "hello" ≠ [] ∧
      ((generate_response initState (t "hello") ⟨2026, 1, 1, 0, 0⟩ 0).1 ≠ [] ∧
        (initState = initState →
          (generate_response initState (t "hello") ⟨2026, 1, 1, 0, 0⟩
              0).2.conversation_started = true)) :=
  ⟨by decide, claim_C1 initState (t "hello") ⟨2026, 1, 1, 0, 0⟩ 0 (by decide)⟩

/-- C3: the four specified name-extraction instances, evaluated on the
code's extractor. -/
theorem claim_C3 :
    detect_name_in_message (t "My name is Alice") = some (t "Alice") ∧
      detect_name_in_message (t "i`m bob!") = some (t "Bob") ∧
      detect_name_in_message (t "Sam") = some (t "Sam") ∧
      detect_name_in_message (t "I like cats") = none := by
  decide

/-- C2 counterexample.  The claim says the first matching lead-in phrase
alone determines the result, with only trailing punctuation stripped, and
that a rejected candidate means no name.  Both parts fail on the code: in
`"my name is 123 i'm Bob"` the first matching phrase `"my name is"` yields
the rejected candidate `"123"`, yet the later phrase `"i'm"` still extracts
`"Bob"`; and in `"i'm .Bob"` the candidate `".Bob"` would be rejected under
trailing-only stripping, yet Python's `strip('.,!?')` removes the leading
dot and the code extracts `"Bob"`. -/
theorem claim_C2_counterexample :
    detect_name_in_message (t "my name is 123 i`m Bob") = some (t "Bob") ∧
      detect_name_in_message (t "i`m .Bob") = some (t "Bob") := by
  decide

/-- The amended C2 extraction rule, written from the amended claim's words:
every lead-in phrase contained in the lower-cased input contributes a
candidate (the first whitespace token after the phrase's first occurrence,
with the punctuation characters `.,!?` stripped from both ends, accepted iff
non-empty and entirely alphabetic, then title-cased); the first accepted
candidate in the fixed phrase order is the name; and only when no candidate
is accepted is the whole-input fallback consulted. -/
def name_extract_amended (input0 : Str) : Option Str :=
  match (namePatterns.filterMap
      (fun p => tryPattern (stripWs input0) (lowerStr (stripWs input0)) p)).head? with
  | some nm => some nm
  | none => fallbackName (stripWs input0)

theorem scanPatterns_eq_head (input lower : Str) (ps : List Str) :
    scanPatterns input lower ps =
      (ps.filterMap (fun p => tryPattern input lower p)).head? := by
  induction ps with
  | nil => rfl
  | cons p ps ih =>
    unfold scanPatterns
    rcases hp : tryPattern input lower p with _ | nm <;>
      simp [List.filterMap_cons, hp, ih]

/-- C2 (amended): the extracted name is the first accepted candidate over
all matching lead-in phrases in order — a rejected candidate falls through
to later phrases, punctuation is stripped from both ends, and the
whole-input fallback is consulted when every candidate is rejected. -/
theorem claim_C2 (input : Str) :
    detect_name_in_message input = name_extract_amended input := by
  unfold detect_name_in_message name_extract_amended
  rw [scanPatterns_eq_head]

/-- C10: every operation preserves the stored-name invariant (the name is
unset or a non-empty, at-most-two-token, letters-and-spaces, title-cased
string), and `detect_name_in_message` only ever produces such strings. -/
theorem claim_C10 :
    (∀ (st : ChatState) (input : Str) (d : DTime) (pick : Nat),
        goodState st → goodState (generate_response st input d pick).2) ∧
      ∀ (input nm : Str), detect_name_in_message input = some nm →
        nm ≠ [] ∧ nm.all (fun c => isAlphaN c || c == 32) = true ∧
          tokenCount nm ≤ 2 ∧ title nm = nm :=
  ⟨fun st input d pick h => goodState_gen st input d pick h,
   fun input nm h => detect_name_props input nm h⟩

/-- A witness for C10: the invariant is preserved across a concrete
first-turn name capture, and the concrete extracted name `"Bob"` has the
claimed shape. -/
theorem claim_C10_witness :
    goodState (generate_response initState (t "i`m bob!")
        ⟨2026, 1, 1, 0, 0⟩ 0).2 ∧
      (t "Bob" ≠ [] ∧ (t "Bob").all (fun c => isAlphaN c || c == 32) = true ∧
        tokenCount (t "Bob") ≤ 2 ∧ title (t "Bob") = t "Bob") :=
  ⟨claim_C10.1 initState (t "i`m bob!") ⟨2026, 1, 1, 0, 0⟩ 0 (Or.inl rfl),
   claim_C10.2 (t "i`m bob!") (t "Bob") (by decide)⟩

theorem goodState_runTurns (ts : List TurnIn) : goodState (runTurns ts) := by
  rw [runTurns]
  suffices h : ∀ st, goodState st → goodState (ts.foldl stepState st) from
    h initState goodState_init
  induction ts with
  | nil => intro st h; exact h
  | cons tu ts ih =>
    intro st h
    rw [List.foldl_cons]
    exact ih _ (goodState_gen st tu.inp tu.now tu.pick h)

theorem frozen_foldl (nm : Str) (more : List TurnIn) :
    ∀ st : ChatState, goodState st → st.user_name = some nm →
      (more.foldl stepState st).user_name = some nm := by
  induction more with
  | nil => intro st _ h; exact h
  | cons tu more ih =>
    intro st hg h
    have hne : nm ≠ [] := by
      rcases hg with h0 | ⟨nm', h1, hgood⟩
      · rw [h0] at h; exact Option.noConfusion h
      · rw [h1] at h
        rw [← Option.some_inj.mp h]
        exact hgood.1
    have htr : truthy st.user_name = true := by
      rw [h]
      cases nm with
      | nil => exact absurd rfl hne
      | cons c r => rfl
    have hstep : stepState st tu = st :=
      generate_response_state_else st tu.inp tu.now tu.pick (by simp [htr])
    rw [List.foldl_cons, hstep]
    exact ih st hg h

/-- C4: once the session's stored name is set it never changes — whatever
later turns arrive (including ones containing name-introduction phrases),
the name after the extended run is the name after the original run. -/
theorem claim_C4 (ts more : List TurnIn) (nm : Str)
    (h : (runTurns ts).user_name = some nm) :
    (runTurns (ts ++ more)).user_name = some nm := by
  rw [runTurns, List.foldl_append]
  exact frozen_foldl nm more (runTurns ts) (goodState_runTurns ts) h

/-- A witness for C4: after `"i'm bob!"` the name is `"Bob"`, and it is
still `"Bob"` after a later `"my name is Eve"` turn. -/
theorem claim_C4_witness :
    (runTurns [⟨t "i`m bob!", ⟨2026, 1, 1, 0, 0⟩, 0⟩]).user_name
        = some (t "Bob") ∧
      (runTurns ([⟨t "i`m bob!", ⟨2026, 1, 1, 0, 0⟩, 0⟩] ++
          [⟨t "my name is Eve", ⟨2026, 1, 1, 0, 0⟩, 1⟩])).user_name
        = some (t "Bob") :=
  ⟨by decide,
   claim_C4 [⟨t "i`m bob!", ⟨2026, 1, 1, 0, 0⟩, 0⟩]
     [⟨t "my name is Eve", ⟨2026, 1, 1, 0, 0⟩, 1⟩] (t "Bob") (by decide)⟩

/-- C5: on every turn after the first (conversation-started flag true) the
detectors are consulted in the fixed order farewell, time query, greeting,
"how are you", fallback, and the reply is drawn from the variant set of the
first detector that fires; in particular `"hi, bye"` fires both the greeting
and the farewell detector and the reply comes from the farewell set. -/
theorem claim_C5 (u : Option Str) (input : Str) (d : DTime) (pick : Nat) :
    ((detect_goodbye input = true →
        (generate_response ⟨u, true⟩ input d pick).1 ∈ goodbye_responses u) ∧
      (detect_goodbye input = false → detect_time_request input = true →
        (generate_response ⟨u, true⟩ input d pick).1 ∈ time_responses d u) ∧
      (detect_goodbye input = false → detect_time_request input = false →
        detect_greeting input = true →
        (generate_response ⟨u, true⟩ input d pick).1 ∈ greeting_responses u) ∧
      (detect_goodbye input = false → detect_time_request input = false →
        detect_greeting input = false → detect_how_are_you input = true →
        (generate_response ⟨u, true⟩ input d pick).1
          ∈ how_are_you_responses u) ∧
      (detect_goodbye input = false → detect_time_request input = false →
        detect_greeting input = false → detect_how_are_you input = false →
        (generate_response ⟨u, true⟩ input d pick).1 ∈ default_responses u)) ∧
      detect_greeting (t "hi, bye") = true ∧
      detect_goodbye (t "hi, bye") = true ∧
      (generate_response ⟨u, true⟩ (t "hi, bye") d pick).1
        ∈ goodbye_responses u := by
  refine ⟨⟨?_, ?_, ?_, ?_, ?_⟩, by decide, by decide, ?_⟩
  · intro h1
    rw [generate_response_reply_else _ _ _ _ (by simp), if_pos h1]
    exact choice_mem _ _ (by simp [goodbye_responses])
  · intro h1 h2
    rw [generate_response_reply_else _ _ _ _ (by simp), if_neg (by simp [h1]),
      if_pos h2]
    exact choice_mem _ _ (by simp [time_responses])
  · intro h1 h2 h3
    rw [generate_response_reply_else _ _ _ _ (by simp), if_neg (by simp [h1]),
      if_neg (by simp [h2]), if_pos h3]
    exact choice_mem _ _ (greeting_responses_not_nil u)
  · intro h1 h2 h3 h4
    rw [generate_response_reply_else _ _ _ _ (by simp), if_neg (by simp [h1]),
      if_neg (by simp [h2]), if_neg (by simp [h3]), if_pos h4]
    exact choice_mem _ _ (by simp [how_are_you_responses])
  · intro h1 h2 h3 h4
    rw [generate_response_reply_else _ _ _ _ (by simp), if_neg (by simp [h1]),
      if_neg (by simp [h2]), if_neg (by simp [h3]), if_neg (by simp [h4])]
    exact choice_mem _ _ (default_responses_not_nil u)
  · rw [generate_response_reply_else _ _ _ _ (by simp), if_pos (by decide)]
    exact choice_mem _ _ (by simp [goodbye_responses])

/-- A witness for C5: in the `Conversing` state with no name, `"hi, bye"`
draws its reply from the farewell variant set. -/
theorem claim_C5_witness :
    (generate_response ⟨none, true⟩ (t "hi, bye") ⟨2026, 1, 1, 0, 0⟩ 0).1
      ∈ goodbye_responses none :=
  (claim_C5 none (t "hi, bye") ⟨2026, 1, 1, 0, 0⟩ 0).2.2.2

/-- C6: with `userName = "Alice"` the reply to `"bye"` is a farewell variant
containing `"Alice"`; with `userName = none` the reply to `"hello"` is a
no-name greeting variant containing no rendered name slot (no `", "`). -/
theorem claim_C6 (d : DTime) (pick : Nat) :
    ((generate_response ⟨some (t "Alice"), true⟩ (t "bye") d pick).1
        ∈ goodbye_responses (some (t "Alice")) ∧
      containsSub
        ((generate_response ⟨some (t "Alice"), true⟩ (t "bye") d pick).1)
        (t "Alice") = true) ∧
      ((generate_response ⟨none, true⟩ (t "hello") d pick).1
          ∈ greeting_responses none ∧
        containsSub ((generate_response ⟨none, true⟩ (t "hello") d pick).1)
          (t ", ") = false) := by
  have h1 : (generate_response ⟨some (t "Alice"), true⟩ (t "bye") d pick).1
      = choice (goodbye_responses (some (t "Alice"))) pick := by
    rw [generate_response_reply_else _ _ _ _ (by decide), if_pos (by decide)]
  have h2 : (generate_response ⟨none, true⟩ (t "hello") d pick).1
      = choice (greeting_responses none) pick := by
    rw [generate_response_reply_else _ _ _ _ (by decide),
      if_neg (by decide), if_neg (by decide), if_pos (by decide)]
  refine ⟨⟨?_, ?_⟩, ?_, ?_⟩
  · rw [h1]; exact choice_mem _ _ (by simp [goodbye_responses])
  · rw [h1]
    have hall : ∀ x ∈ goodbye_responses (some (t "Alice")),
        containsSub x (t "Alice") = true := by decide
    exact hall _ (choice_mem _ _ (by simp [goodbye_responses]))
  · rw [h2]; exact choice_mem _ _ (greeting_responses_not_nil none)
  · rw [h2]
    have hall : ∀ x ∈ greeting_responses none,
        containsSub x (t ", ") = false := by decide
    exact hall _ (choice_mem _ _ (greeting_responses_not_nil none))

/-- C7: on a first turn with no extractable name the engine marks the
conversation started, returns the fixed "didn't catch your name" reply and
consults no detector; and every later turn with `userName` still unset
leaves the state unchanged and draws its reply from the ordered intent
variant sets. -/
theorem claim_C7 :
    (∀ (input : Str) (d : DTime) (pick : Nat),
        detect_name_in_message input = none →
        generate_response initState input d pick
          = (noNameReply, ⟨none, true⟩)) ∧
      ∀ (input : Str) (d : DTime) (pick : Nat),
        (generate_response ⟨none, true⟩ input d pick).2 = ⟨none, true⟩ ∧
          (generate_response ⟨none, true⟩ input d pick).1 ∈
            goodbye_responses none ++ time_responses d none ++
              greeting_responses none ++ how_are_you_responses none ++
              default_responses none := by
  constructor
  · intro input d pick hd
    rw [generate_response_first initState input d pick rfl rfl, hd]
    rfl
  · intro input d pick
    constructor
    · exact generate_response_state_else _ _ _ _ (by simp)
    · rw [generate_response_reply_else _ _ _ _ (by simp)]
      simp only [List.mem_append]
      split
      · exact Or.inl (Or.inl (Or.inl (Or.inl
          (choice_mem _ _ (by simp [goodbye_responses])))))
      · split
        · exact Or.inl (Or.inl (Or.inl (Or.inr
            (choice_mem _ _ (by simp [time_responses])))))
        · split
          · exact Or.inl (Or.inl (Or.inr
              (choice_mem _ _ (greeting_responses_not_nil none))))
          · split
            · exact Or.inl (Or.inr
                (choice_mem _ _ (by simp [how_are_you_responses])))
            · exact Or.inr (choice_mem _ _ (default_responses_not_nil none))

/-- A witness for C7: `"how are you doing today"` matches an intent detector
but extracts no name, so the first turn returns the fixed no-name reply and
only sets the conversation-started flag. -/
theorem claim_C7_witness :
    generate_response initState (t "how are you doing today")
        ⟨2026, 1, 1, 0, 0⟩ 0 = (noNameReply, ⟨none, true⟩) :=
  claim_C7.1 (t "how are you doing today") ⟨2026, 1, 1, 0, 0⟩ 0 (by decide)

/-- A `\w` character of the reply pattern: letter, digit or underscore. -/
def isWordN (n : Nat) : Bool := isAlphaN n || isDigitN n || n = 95

/-- The shape `It's currently \d{2}:\d{2} (AM|PM) on \w+ \d{1,2}, \d{4}`
required of the time reply's core. -/
def MatchesTimePattern (s : Str) : Prop :=
  ∃ hh mm ap mon dd yy : Str,
    s = t "It`s currently " ++ hh ++ t ":" ++ mm ++ t " " ++ ap ++ t " on "
          ++ mon ++ t " " ++ dd ++ t ", " ++ yy ∧
      hh.length = 2 ∧ hh.all isDigitN = true ∧
      mm.length = 2 ∧ mm.all isDigitN = true ∧
      (ap = t "AM" ∨ ap = t "PM") ∧
      mon ≠ [] ∧ mon.all isWordN = true ∧
      (dd.length = 1 ∨ dd.length = 2) ∧ dd.all isDigitN = true ∧
      yy.length = 4 ∧ yy.all isDigitN = true

theorem twoDig_all_digits (n : Nat) : (twoDig n).all isDigitN = true := by
  simp only [twoDig, isDigitN, List.all_cons, List.all_nil, Bool.and_true,
    Bool.and_eq_true, decide_eq_true_eq]
  omega

theorem fourDig_all_digits (n : Nat) : (fourDig n).all isDigitN = true := by
  simp only [fourDig, isDigitN, List.all_cons, List.all_nil, Bool.and_true,
    Bool.and_eq_true, decide_eq_true_eq]
  omega

theorem monthName_ok (m : Nat) (h1 : 1 ≤ m) (h2 : m ≤ 12) :
    monthName m ≠ [] ∧ (monthName m).all isWordN = true := by
  interval_cases m <;> exact ⟨by decide, by decide⟩

theorem matchesTimePattern_time (d : DTime) (h1 : 1 ≤ d.month)
    (h2 : d.month ≤ 12) : MatchesTimePattern (get_current_time d) := by
  refine ⟨twoDig (hour12 d.hour), twoDig d.minute, ampm d.hour,
    monthName d.month, twoDig d.day, fourDig d.year, rfl,
    rfl, twoDig_all_digits _, rfl, twoDig_all_digits _, ?_,
    (monthName_ok d.month h1 h2).1, (monthName_ok d.month h1 h2).2,
    Or.inr rfl, twoDig_all_digits _, rfl, fourDig_all_digits _⟩
  unfold ampm
  split
  · exact Or.inl rfl
  · exact Or.inr rfl

theorem time_responses_contain (d : DTime) (u : Option Str) :
    ∀ x ∈ time_responses d u, containsSub x (get_current_time d) = true := by
  intro x hx
  simp only [time_responses, List.mem_cons, List.not_mem_nil, or_false] at hx
  rcases hx with h | h | h <;> subst h
  · exact containsSub_self _
  · have h := containsSub_append [] (get_current_time d) (t " ⏰")
    simpa using h
  · have h := containsSub_append (t "Sure thing" ++ nameTag u ++ t "! ")
      (get_current_time d) []
    simpa using h

/-- C8: for a time-query input in the `Conversing` state (one that does not
also fire the higher-priority farewell detector), the reply is one of the
three time variants, each embedding the local time read at this very call,
and that embedded core matches the pattern
`It's currently \d{2}:\d{2} (AM|PM) on \w+ \d{1,2}, \d{4}`. -/
theorem claim_C8 (u : Option Str) (input : Str) (d : DTime) (pick : Nat)
    (hg : detect_goodbye input = false)
    (ht : detect_time_request input = true)
    (hm1 : 1 ≤ d.month) (hm2 : d.month ≤ 12) :
    (generate_response ⟨u, true⟩ input d pick).1 ∈ time_responses d u ∧
      containsSub ((generate_response ⟨u, true⟩ input d pick).1)
        (get_current_time d) = true ∧
      MatchesTimePattern (get_current_time d) := by
  have hr : (generate_response ⟨u, true⟩ input d pick).1
      = choice (time_responses d u) pick := by
    rw [generate_response_reply_else _ _ _ _ (by simp),
      if_neg (by simp [hg]), if_pos ht]
  have hmem : choice (time_responses d u) pick ∈ time_responses d u :=
    choice_mem _ _ (by simp [time_responses])
  refine ⟨?_, ?_, matchesTimePattern_time d hm1 hm2⟩
  · rw [hr]; exact hmem
  · rw [hr]; exact time_responses_contain d u _ hmem

/-- A witness for C8 at the input `"what time is it?"` and the concrete
local time 3:30 PM on October 12, 2026. -/
theorem claim_C8_witness :
    (generate_response ⟨none, true⟩ (t "what time is it?")
        ⟨2026, 10, 12, 15, 30⟩ 0).1 ∈ time_responses ⟨2026, 10, 12, 15, 30⟩ none ∧
      containsSub ((generate_response ⟨none, true⟩ (t "what time is it?")
          ⟨2026, 10, 12, 15, 30⟩ 0).1)
        (get_current_time ⟨2026, 10, 12, 15, 30⟩) = true ∧
      MatchesTimePattern (get_current_time ⟨2026, 10, 12, 15, 30⟩) :=
  claim_C8 none (t "what time is it?") ⟨2026, 10, 12, 15, 30⟩ 0
    (by decide) (by decide) (by decide) (by decide)

/-- C9 counterexample.  The claim promises exactly one appended line for
EVERY sender and message, but a message containing a newline (as the
program's own two-line welcome message does) makes the single appended
entry span two lines: the appended text contains two newline characters. -/
theorem claim_C9_counterexample :
    log_message [] true (t "T") (t "S") (t "a" ++ [10] ++ t "b")
        = ([] ++ logEntry (t "T") (t "S") (t "a" ++ [10] ++ t "b"), false) ∧
      lineCount (logEntry (t "T") (t "S") (t "a" ++ [10] ++ t "b")) = 2 := by
  decide

theorem lineCount_append (a b : Str) :
    lineCount (a ++ b) = lineCount a + lineCount b := by
  simp [lineCount, List.filter_append]

/-- C9 (amended): `log_message` appends exactly the newline-terminated entry
`[<timestamp>] <sender>: <message>` on a successful write — a single line
whenever the timestamp, sender and message are themselves newline-free —
and a write failure is non-fatal: the error is caught and reported, nothing
propagates (the model is a total function), and the log is unchanged, so
the conversation continues with its state untouched. -/
theorem claim_C9 (log : Str) (writeOk : Bool) (ts sender msg : Str)
    (hts : lineCount ts = 0) (hsender : lineCount sender = 0)
    (hmsg : lineCount msg = 0) :
    log_message log writeOk ts sender msg
        = (if writeOk then log ++ logEntry ts sender msg else log, !writeOk) ∧
      lineCount (logEntry ts sender msg) = 1 := by
  constructor
  · unfold log_message
    cases writeOk <;> rfl
  · simp [logEntry, lineCount_append, hts, hsender, hmsg]
    decide

/-- A witness for C9 at a concrete newline-free timestamp, sender and
message, exercising both the successful and the failing write. -/
theorem claim_C9_witness :
    log_message (t "old") true (t "2026-10-12 15:30:00") (t "PyPal") (t "Hello!")
        = (if true then t "old" ++ logEntry (t "2026-10-12 15:30:00") (t "PyPal")
            (t "Hello!") else t "old", !true) ∧
      lineCount (logEntry (t "2026-10-12 15:30:00") (t "PyPal") (t "Hello!"))
        = 1 :=
  claim_C9 (t "old") true (t "2026-10-12 15:30:00") (t "PyPal") (t "Hello!")
    (by decide) (by decide) (by decide)
